import Mathlib

/-!
Verification of the client-side BrowserContext and Stream modules of the
playwright protocol client.  The definitions below are a shallow embedding of
`src/client/browserContext.ts` and `src/client/stream.ts`: asynchronous
handlers become pure functions over explicit state, the remote channel is
represented by the response it delivers, and JavaScript truthiness checks on
strings become emptiness checks.
-/

/- ====================  Route dispatch (BrowserContext._onRoute / route)  ==================== -/

/-- RouteHandler: one entry of the route handler list.  The URL matcher of the
real class (built in network.ts from a base URL and a URL pattern) is kept
abstract as a boolean predicate on the request URL; `id` identifies the
handler so that theorems can speak about which handler was invoked. -/
structure RouteHandler where
  id : Nat
  matchesUrl : String → Bool

/-- RouteOutcome: what BrowserContext._onRoute did with a route event.
`handled i` means the handler with identity `i` was invoked and iteration
stopped; `continued` means no handler matched and the request was resolved to
continue unmodified. -/
inductive RouteOutcome where
  | handled (handlerId : Nat)
  | continued
  deriving DecidableEq

/-- BrowserContext.route: registering a handler unshifts it onto the front of
the route handler list (browserContext.ts line 279). -/
def BrowserContext.route (routes : List RouteHandler) (h : RouteHandler) : List RouteHandler :=
  h :: routes

/-- BrowserContext._onRoute (browserContext.ts lines 135-144): iterate the
handler list in order; the first handler whose matcher accepts the request URL
is invoked and iteration stops.  If no handler accepts it, the request is continued;
the `contRes` argument is the result of that default `route.continue()` call,
whose error (if any) is swallowed by `.catch(() => ...)` in the source, so the
outcome does not depend on it. -/
def BrowserContext.onRoute : List RouteHandler → String → Except String Unit → RouteOutcome
  | [], _, _ => RouteOutcome.continued
  | rh :: rest, url, contRes =>
    if rh.matchesUrl url then RouteOutcome.handled rh.id
    else BrowserContext.onRoute rest url contRes

/- ====================  Stream reader (StreamImpl)  ==================== -/

/-- b64Val: value of one character of the standard base64 alphabet, `none` for
characters outside it (padding and invalid characters are skipped, as with
the lenient Node Buffer decoder). -/
def b64Val (c : Char) : Option Nat :=
  if 'A' ≤ c ∧ c ≤ 'Z' then some (c.toNat - 65)
  else if 'a' ≤ c ∧ c ≤ 'z' then some (c.toNat - 71)
  else if '0' ≤ c ∧ c ≤ '9' then some (c.toNat + 4)
  else if c = '+' then some 62
  else if c = '/' then some 63
  else none

/-- b64Bytes: regroup a list of 6-bit values into 8-bit bytes. -/
def b64Bytes : List Nat → List Nat
  | a :: b :: c :: d :: rest =>
    (a * 4 + b / 16) :: ((b % 16) * 16 + c / 4) :: ((c % 4) * 64 + d) :: b64Bytes rest
  | [a, b] => [a * 4 + b / 16]
  | [a, b, c] => [a * 4 + b / 16, (b % 16) * 16 + c / 4]
  | _ => []

/-- base64Decode: the decoding performed by `Buffer.from(binary, base64)` in
StreamImpl._read. -/
def base64Decode (s : String) : List Nat :=
  b64Bytes (s.data.filterMap b64Val)

/-- ReadPush: what one call of StreamImpl._read pushes to the consumer:
a decoded chunk of bytes, or `eos` (the push of null ending the stream). -/
inductive ReadPush where
  | chunk (bytes : List Nat)
  | eos
  deriving DecidableEq

/-- ReadRequest: one read request sent on the stream channel, carrying the
requested maximal size. -/
structure ReadRequest where
  size : Nat
  deriving DecidableEq

/-- StreamImpl.read: the body of StreamImpl._read (stream.ts lines 43-49)
applied to the response of the single channel read request it issues.
`binary` is the optional base64 payload of the response; the JavaScript
truthiness test `if (result.binary)` treats both an absent and an empty
string as end of stream, pushing null. -/
def StreamImpl.read (binary : Option String) : ReadPush :=
  match binary with
  | some b => if b = "" then ReadPush.eos else ReadPush.chunk (base64Decode b)
  | none => ReadPush.eos

/-- StreamImpl.pull: one pull of size `size` issues exactly one read request
for up to `size` bytes and pushes the result of StreamImpl.read on the
response. -/
def StreamImpl.pull (size : Nat) (binary : Option String) : List ReadRequest × ReadPush :=
  ([ReadRequest.mk size], StreamImpl.read binary)

/-- StreamImpl.pullLoop: the sequence of pushes produced by repeated pulls
against a remote source answering with the given responses in order.  After a
response carrying no data the stream has pushed null, so no further read
requests are issued and the remaining responses are never consumed. -/
def StreamImpl.pullLoop : List (Option String) → List ReadPush
  | [] => []
  | r :: rest =>
    match StreamImpl.read r with
    | ReadPush.eos => [ReadPush.eos]
    | ReadPush.chunk bs => ReadPush.chunk bs :: StreamImpl.pullLoop rest

/-- StreamImpl.readRequestCount: how many read requests the pull loop issues
against the given list of responses. -/
def StreamImpl.readRequestCount : List (Option String) → Nat
  | [] => 0
  | r :: rest =>
    match StreamImpl.read r with
    | ReadPush.eos => 1
    | ReadPush.chunk _ => 1 + StreamImpl.readRequestCount rest

/-- StreamState: the observable state of one StreamImpl from the point of view
of destruction: whether end of stream was observed, how many close
notifications were sent to the remote side, and whether the local object was
destroyed. -/
structure StreamState where
  ended : Bool
  closeCallsSent : Nat
  destroyed : Bool
  deriving DecidableEq

/-- StreamImpl.destroy: the body of StreamImpl._destroy (stream.ts lines
51-55).  It always sends one close notification on the channel; `closeResult`
is the outcome of that call, which is discarded by `.catch(e => null)` in the
source, so the resulting state does not depend on it, and nothing guards
against being called again. -/
def StreamImpl.destroy (closeResult : Except String Unit) (s : StreamState) : StreamState :=
  { s with closeCallsSent := s.closeCallsSent + 1, destroyed := true }

/- ====================  Waiter and BrowserContext.waitForEvent  ==================== -/

/-- closeEventName: Modelled from the spec: the name of the context close
event, the constant Events.BrowserContext.Close of the events module, which
is not part of the sources.  The claims depend only on its identity, not on
its value. -/
def closeEventName : String := "close"

/-- WaiterBranch: Modelled from the spec: one guard branch of a Waiter
(waiter.ts is not part of the sources).  `rejectOnTimeout` installs a
`timeoutGuard`, `rejectOnEvent` installs a rejection guard on an event
name. -/
inductive WaiterBranch where
  | timeoutGuard (ms : Nat) (message : String)
  | rejectOnEvent (eventName : String) (message : String)
  deriving DecidableEq

/-- Occurrence: one observable step of a run: an event firing with a payload
(payloads are kept abstract as naturals), or time elapsing. -/
inductive Occurrence where
  | fires (name : String) (payload : Nat)
  | elapse (ms : Nat)
  deriving DecidableEq

/-- WaitResult: the outcome of a wait: resolved with the payload of the
target event, rejected with an error message, or still pending. -/
inductive WaitResult where
  | resolved (payload : Nat)
  | rejected (message : String)
  | pending
  deriving DecidableEq

/-- guardRejection: the message of the first rejection guard watching the
given event name, if any. -/
def guardRejection : List WaiterBranch → String → Option String
  | [], _ => none
  | WaiterBranch.timeoutGuard _ _ :: rest, name => guardRejection rest name
  | WaiterBranch.rejectOnEvent n msg :: rest, name =>
    if n = name then some msg else guardRejection rest name

/-- timeoutRejection: the message of the first timeout guard whose duration
has been reached by the elapsed time, if any. -/
def timeoutRejection : List WaiterBranch → Nat → Option String
  | [], _ => none
  | WaiterBranch.timeoutGuard ms msg :: rest, elapsed =>
    if ms ≤ elapsed then some msg else timeoutRejection rest elapsed
  | WaiterBranch.rejectOnEvent _ _ :: rest, elapsed => timeoutRejection rest elapsed

/-- runWaitAux: Modelled from the spec: the Waiter race (waiter.ts is not
part of the sources).  The first branch to fire wins: a firing event first
consults the rejection guards (they are subscribed before the target event
listener), then resolves the wait if it is the target event; elapsing time
fires a timeout guard once its duration is reached.  Exactly one branch
resolves the wait; later occurrences are not examined. -/
def runWaitAux (guards : List WaiterBranch) (target : String) : Nat → List Occurrence → WaitResult
  | _, [] => WaitResult.pending
  | elapsed, Occurrence.fires name p :: rest =>
    match guardRejection guards name with
    | some msg => WaitResult.rejected msg
    | none =>
      if name = target then WaitResult.resolved p
      else runWaitAux guards target elapsed rest
  | elapsed, Occurrence.elapse ms :: rest =>
    match timeoutRejection guards (elapsed + ms) with
    | some msg => WaitResult.rejected msg
    | none => runWaitAux guards target (elapsed + ms) rest

/-- runWait: run a Waiter with the given guards and target event over a
trace of occurrences, starting with no time elapsed. -/
def runWait (guards : List WaiterBranch) (target : String) (trace : List Occurrence) : WaitResult :=
  runWaitAux guards target 0 trace

/-- BrowserContext.waitForEventGuards: the guard branches installed by
BrowserContext.waitForEvent (browserContext.ts lines 297-300): always a
timeout guard; additionally a rejection guard on the context close event
with the error message Context closed, exactly when the target event is not
the close event itself. -/
def BrowserContext.waitForEventGuards (event : String) (timeout : Nat) : List WaiterBranch :=
  [WaiterBranch.timeoutGuard timeout ("Timeout while waiting for event \"" ++ event ++ "\"")] ++
    (if event = closeEventName then []
     else [WaiterBranch.rejectOnEvent closeEventName "Context closed"])

/-- BrowserContext.waitForEvent: the wait performed by
BrowserContext.waitForEvent, as the Waiter race of its installed guards
against the target event over a trace of occurrences. -/
def BrowserContext.waitForEvent (event : String) (timeout : Nat) (trace : List Occurrence) : WaitResult :=
  runWait (BrowserContext.waitForEventGuards event timeout) event trace

/- ====================  BrowserContext._onClose  ==================== -/

/-- BCState: the observable state of one BrowserContext relevant to its close
handler: the closed flag, whether an owning browser and a browser type are
attached, the registries of context guids held by the owning browser and by
the browser type, the listener ids subscribed to the local close event
(among them the resolver of the internal closed promise installed by the
constructor at browserContext.ts line 91, and any Waiter branch), and the
listeners notified so far. -/
structure BCState where
  closed : Bool
  hasBrowser : Bool
  hasBrowserType : Bool
  browserContexts : List Nat
  browserTypeContexts : List Nat
  closeListeners : List Nat
  notified : List Nat
  deriving DecidableEq

/-- BrowserContext.emitClose: emitting the local close event notifies every
subscribed close listener. -/
def BrowserContext.emitClose (s : BCState) : BCState :=
  { s with notified := s.notified ++ s.closeListeners }

/-- BrowserContext.onClose: the body of BrowserContext._onClose
(browserContext.ts lines 336-342): set the closed flag, remove this context
from the owning browser registry if a browser is attached, remove it from
the browser type registry if one is attached (optional chaining), then emit
the local close event. -/
def BrowserContext.onClose (guid : Nat) (s : BCState) : BCState :=
  BrowserContext.emitClose { s with
    closed := true,
    browserContexts :=
      if s.hasBrowser then s.browserContexts.filter (fun g => g != guid)
      else s.browserContexts,
    browserTypeContexts :=
      if s.hasBrowserType then s.browserTypeContexts.filter (fun g => g != guid)
      else s.browserTypeContexts }

/-- closeExampleState: a concrete context state used to witness the close
handler theorem: context guid 7 is registered with its browser and browser
type, and listeners 3 and 4 are subscribed to the local close event. -/
def closeExampleState : BCState :=
  ⟨false, true, true, [7, 8], [7], [3, 4], []⟩

/- ====================  Binding registry  ==================== -/

/-- Callback: a binding callback, taking the injected call source and the
call arguments; sources, arguments and results are kept abstract as
naturals. -/
abbrev Callback := Nat → List Nat → Nat

/-- mapSet: JavaScript Map.set on an association list: replace the value of
an existing key in place, otherwise append the new entry. -/
def mapSet : List (String × Callback) → String → Callback → List (String × Callback)
  | [], k, v => [(k, v)]
  | (k1, v1) :: rest, k, v =>
    if k1 = k then (k, v) :: rest else (k1, v1) :: mapSet rest k v

/-- mapGet: JavaScript Map.get on an association list. -/
def mapGet : List (String × Callback) → String → Option Callback
  | [], _ => none
  | (k1, v1) :: rest, k => if k1 = k then some v1 else mapGet rest k

/-- BrowserContext.exposeBinding (browserContext.ts lines 262-267): await the
remote exposeBinding channel call, then store the callback in the local
binding registry.  `channelResult` is the outcome of the awaited call; when
it fails the await throws, so the registry is left unchanged. -/
def BrowserContext.exposeBinding (channelResult : Except String Unit)
    (bindings : List (String × Callback)) (name : String) (callback : Callback) :
    Except String Unit × List (String × Callback) :=
  match channelResult with
  | Except.error e => (Except.error e, bindings)
  | Except.ok _ => (Except.ok (), mapSet bindings name callback)

/-- BrowserContext.exposeFunction (browserContext.ts lines 269-275): like
exposeBinding, but the stored callback is an adapter discarding the injected
source argument. -/
def BrowserContext.exposeFunction (channelResult : Except String Unit)
    (bindings : List (String × Callback)) (name : String) (fn : List Nat → Nat) :
    Except String Unit × List (String × Callback) :=
  match channelResult with
  | Except.error e => (Except.error e, bindings)
  | Except.ok _ => (Except.ok (), mapSet bindings name (fun _source args => fn args))

/-- BindingOutcome: what BrowserContext._onBinding did with a bindingCall
event: dropped it silently, or invoked the registered callback. -/
inductive BindingOutcome where
  | dropped
  | invoked (callback : Callback)

/-- BrowserContext.onBinding (browserContext.ts lines 146-151): look the
binding name of the bindingCall event up in the registry; when absent, the
call is dropped by an early return, otherwise the registered callback is
invoked. -/
def BrowserContext.onBinding (bindings : List (String × Callback)) (name : String) :
    BindingOutcome :=
  match mapGet bindings name with
  | none => BindingOutcome.dropped
  | some f => BindingOutcome.invoked f

/- ====================  Network event fan-out  ==================== -/

/-- EmitScope: the scope of one local event emission: the browser context
itself, or a page identified by its id. -/
inductive EmitScope where
  | context
  | page (pageId : Nat)
  deriving DecidableEq

/-- Emission: one local event emission, with its scope and event name. -/
structure Emission where
  scope : EmitScope
  event : String
  deriving DecidableEq

/-- Emission.isContextScoped: whether the emission happened at the scope of
the browser context. -/
def Emission.isContextScoped (e : Emission) : Bool :=
  match e.scope with
  | EmitScope.context => true
  | EmitScope.page _ => false

/-- pageEmits: the page-scoped emissions of a wire event carrying an optional
page reference: one on the referenced page, none when no page is
referenced. -/
def pageEmits (page : Option Nat) (name : String) : List Emission :=
  match page with
  | some pid => [Emission.mk (EmitScope.page pid) name]
  | none => []

/-- RequestData: the fields of a network request object mutated by the
context event handlers: the failure text and the responseEnd field of the
optional timing record. -/
structure RequestData where
  failureText : Option String
  timingResponseEnd : Option Int
  deriving DecidableEq

/-- BrowserContext.onRequest (browserContext.ts lines 106-110): emit the
request event at the context scope, and also at the page scope when a page
is referenced. -/
def BrowserContext.onRequest (page : Option Nat) : List Emission :=
  Emission.mk EmitScope.context "request" :: pageEmits page "request"

/-- BrowserContext.onResponse (browserContext.ts lines 112-116): emit the
response event at the context scope, and also at the page scope when a page
is referenced. -/
def BrowserContext.onResponse (page : Option Nat) : List Emission :=
  Emission.mk EmitScope.context "response" :: pageEmits page "response"

/-- BrowserContext.onRequestFailed (browserContext.ts lines 118-125): record
the failure text (JavaScript truthiness turns an absent or empty text into
null), update the responseEnd of the timing record when one exists, and emit
the requestfailed event at the context scope and at the page scope when a
page is referenced. -/
def BrowserContext.onRequestFailed (req : RequestData) (responseEndTiming : Int)
    (failureText : Option String) (page : Option Nat) : RequestData × List Emission :=
  ({ failureText :=
       match failureText with
       | some s => if s = "" then none else some s
       | none => none,
     timingResponseEnd :=
       match req.timingResponseEnd with
       | some _ => some responseEndTiming
       | none => none },
   Emission.mk EmitScope.context "requestfailed" :: pageEmits page "requestfailed")

/-- BrowserContext.onRequestFinished (browserContext.ts lines 127-133):
update the responseEnd of the timing record when one exists, and emit the
requestfinished event at the context scope and at the page scope when a page
is referenced. -/
def BrowserContext.onRequestFinished (req : RequestData) (responseEndTiming : Int)
    (page : Option Nat) : RequestData × List Emission :=
  ({ req with
     timingResponseEnd :=
       match req.timingResponseEnd with
       | some _ => some responseEndTiming
       | none => none },
   Emission.mk EmitScope.context "requestfinished" :: pageEmits page "requestfinished")

/-- emitProps: the fan-out contract of one wire event with an optional page
reference: exactly one context-scoped emission, exactly one page-scoped
emission when and only when a page is referenced, at most two emissions in
total, the page-scoped emission targets the referenced page, and every
emission carries the event name of the wire event. -/
def emitProps (L : List Emission) (page : Option Nat) (name : String) : Prop :=
  L.countP (fun e => e.isContextScoped) = 1 ∧
  L.countP (fun e => !e.isContextScoped) = (if page.isSome then 1 else 0) ∧
  L.length ≤ 2 ∧
  (∀ pid, page = some pid → Emission.mk (EmitScope.page pid) name ∈ L) ∧
  (∀ e ∈ L, e.event = name)

/- ====================  Theorems  ==================== -/

/-- mapGet_mapSet_self: looking up a key just set yields the value just
set. -/
theorem mapGet_mapSet_self (m : List (String × Callback)) (k : String) (v : Callback) :
    mapGet (mapSet m k v) k = some v := by
  induction m with
  | nil => simp [mapSet, mapGet]
  | cons p rest ih =>
    obtain ⟨k1, v1⟩ := p
    by_cases h : k1 = k
    · simp [mapSet, mapGet, h]
    · simp [mapSet, mapGet, h, ih]

/-- mapGet_eq_none: looking up a key held by no entry yields none. -/
theorem mapGet_eq_none (m : List (String × Callback)) (n : String)
    (h : ∀ p ∈ m, p.1 ≠ n) : mapGet m n = none := by
  induction m with
  | nil => rfl
  | cons p rest ih =>
    obtain ⟨k1, v1⟩ := p
    have h1 : k1 ≠ n := h (k1, v1) (by simp)
    have h2 : ∀ q ∈ rest, q.1 ≠ n := fun q hq => h q (by simp [hq])
    simp [mapGet, h1, ih h2]

/-- onRoute_eq_find: _onRoute invokes exactly the first handler of the list
whose matcher accepts the URL, independently of the default continuation
result. -/
theorem onRoute_eq_find (routes : List RouteHandler) (url : String) (contRes : Except String Unit) :
    BrowserContext.onRoute routes url contRes =
      (match routes.find? (fun rh => rh.matchesUrl url) with
        | some rh => RouteOutcome.handled rh.id
        | none => RouteOutcome.continued) := by
  induction routes with
  | nil => rfl
  | cons rh rest ih =>
    by_cases hm : rh.matchesUrl url = true
    · simp [BrowserContext.onRoute, List.find?, hm]
    · simp only [Bool.not_eq_true] at hm
      simp [BrowserContext.onRoute, List.find?, hm, ih]

/-- C1: on a route event, the handler list is tried in its current order with
the most recently registered handler first (route prepends), the first
handler whose matcher accepts the URL is invoked and iteration stops, and if
no handler accepts the URL the request is continued with any continuation error
swallowed (the outcome does not depend on the continuation result). -/
theorem onRoute_precedence (routes : List RouteHandler) (A B : RouteHandler) (url : String)
    (contRes : Except String Unit) :
    BrowserContext.route routes A = A :: routes ∧
    BrowserContext.onRoute routes url contRes =
      (match routes.find? (fun rh => rh.matchesUrl url) with
        | some rh => RouteOutcome.handled rh.id
        | none => RouteOutcome.continued) ∧
    BrowserContext.onRoute routes url contRes = BrowserContext.onRoute routes url (Except.ok ()) ∧
    (B.matchesUrl url = true →
      BrowserContext.onRoute (BrowserContext.route (BrowserContext.route routes A) B) url contRes =
        RouteOutcome.handled B.id) := by
  refine ⟨rfl, onRoute_eq_find routes url contRes, ?_, ?_⟩
  · rw [onRoute_eq_find, onRoute_eq_find]
  · intro hB
    simp [BrowserContext.route, BrowserContext.onRoute, hB]

/-- onRoute_precedence_witness: two handlers both matching everything,
registered in order A then B; the route event is handled by B. -/
theorem onRoute_precedence_witness :
    BrowserContext.onRoute
        (BrowserContext.route (BrowserContext.route [] ⟨1, fun _ => true⟩) ⟨2, fun _ => true⟩)
        "http://x/" (Except.ok ()) = RouteOutcome.handled 2 :=
  (onRoute_precedence [] ⟨1, fun _ => true⟩ ⟨2, fun _ => true⟩ "http://x/" (Except.ok ())).2.2.2 rfl

/-- C4: each pull issues exactly one read request for up to the requested
size; against a source answering with data chunks followed by an empty
response, the pushes are exactly the decoded chunks followed by end of
stream, the number of read requests is the number of data responses plus one,
and responses after the empty one are never requested (the counts and pushes
do not depend on `rest`). -/
theorem stream_read_exhaustion (datas : List String) (rest : List (Option String))
    (hne : ∀ d ∈ datas, d ≠ "") :
    StreamImpl.pullLoop (datas.map some ++ none :: rest) =
      datas.map (fun d => ReadPush.chunk (base64Decode d)) ++ [ReadPush.eos] ∧
    StreamImpl.readRequestCount (datas.map some ++ none :: rest) = datas.length + 1 ∧
    ∀ (size : Nat) (binary : Option String),
      (StreamImpl.pull size binary).1 = [ReadRequest.mk size] := by
  refine ⟨?_, ?_, fun _ _ => rfl⟩
  · induction datas with
    | nil => rfl
    | cons d ds ih =>
      have hd : d ≠ "" := hne d (by simp)
      have hds : ∀ x ∈ ds, x ≠ "" := fun x hx => hne x (by simp [hx])
      simp [StreamImpl.pullLoop, StreamImpl.read, hd, ih hds]
  · induction datas with
    | nil => rfl
    | cons d ds ih =>
      have hd : d ≠ "" := hne d (by simp)
      have hds : ∀ x ∈ ds, x ≠ "" := fun x hx => hne x (by simp [hx])
      simp [StreamImpl.readRequestCount, StreamImpl.read, hd, ih hds]
      omega

/-- stream_read_exhaustion_witness: the mock source of the spec, yielding the
base64 encodings of abc and def and then an empty response; the pulls yield
the two chunks then end of stream with exactly three read requests, and a
fourth response is never consumed. -/
theorem stream_read_exhaustion_witness :
    StreamImpl.pullLoop ((["YWJj", "ZGVm"] : List String).map some ++ none :: [some "eHl6"]) =
      (["YWJj", "ZGVm"] : List String).map (fun d => ReadPush.chunk (base64Decode d)) ++
        [ReadPush.eos] ∧
    StreamImpl.readRequestCount ((["YWJj", "ZGVm"] : List String).map some ++ none :: [some "eHl6"]) =
      2 + 1 := by
  have h := stream_read_exhaustion ["YWJj", "ZGVm"] [some "eHl6"] (by decide)
  exact ⟨h.1, h.2.1⟩

/-- C5: destroying the stream always sends exactly one more close
notification to the remote side, regardless of whether end of stream was
already observed; the resulting state does not depend on the outcome of that
close call (errors are ignored); and destroying twice is safe, sending one
close notification per invocation. -/
theorem stream_destroy_always_closes (s : StreamState) (r1 r2 : Except String Unit) :
    (StreamImpl.destroy r1 s).closeCallsSent = s.closeCallsSent + 1 ∧
    (StreamImpl.destroy r1 { s with ended := true }).closeCallsSent = s.closeCallsSent + 1 ∧
    StreamImpl.destroy r1 s = StreamImpl.destroy r2 s ∧
    (StreamImpl.destroy r2 (StreamImpl.destroy r1 s)).closeCallsSent = s.closeCallsSent + 2 ∧
    (StreamImpl.destroy r2 (StreamImpl.destroy r1 s)).destroyed = true :=
  ⟨rfl, rfl, rfl, rfl, rfl⟩

/-- C2: for every waitForEvent call whose target event is not the close
event, a rejection guard on the close event is installed, so that when the
close event fires before the target event the wait is rejected with the
Context closed error instead of staying pending. -/
theorem waitForEvent_close_guard (event : String) (timeout p : Nat) (rest : List Occurrence)
    (h : event ≠ closeEventName) :
    WaiterBranch.rejectOnEvent closeEventName "Context closed" ∈
      BrowserContext.waitForEventGuards event timeout ∧
    BrowserContext.waitForEvent event timeout (Occurrence.fires closeEventName p :: rest) =
      WaitResult.rejected "Context closed" := by
  constructor
  · simp [BrowserContext.waitForEventGuards, h]
  · simp [BrowserContext.waitForEvent, BrowserContext.waitForEventGuards, h, runWait,
      runWaitAux, guardRejection]

/-- waitForEvent_close_guard_witness: waiting for a page event and firing the
close event first rejects the wait with the Context closed error. -/
theorem waitForEvent_close_guard_witness :
    ("page" : String) ≠ closeEventName ∧
    BrowserContext.waitForEvent "page" 1000 [Occurrence.fires closeEventName 0] =
      WaitResult.rejected "Context closed" :=
  ⟨by decide, (waitForEvent_close_guard "page" 1000 0 [] (by decide)).2⟩

/-- C10: when waitForEvent targets the close event itself, no close rejection
guard is installed (the guard list holds only the timeout guard), so the
wait resolves with the payload of the close event. -/
theorem waitForEvent_close_target (timeout p : Nat) (rest : List Occurrence) :
    BrowserContext.waitForEventGuards closeEventName timeout =
      [WaiterBranch.timeoutGuard timeout
        ("Timeout while waiting for event \"" ++ closeEventName ++ "\"")] ∧
    BrowserContext.waitForEvent closeEventName timeout
        (Occurrence.fires closeEventName p :: rest) = WaitResult.resolved p := by
  constructor
  · simp [BrowserContext.waitForEventGuards]
  · simp [BrowserContext.waitForEvent, BrowserContext.waitForEventGuards, runWait,
      runWaitAux, guardRejection]

/-- C3: a close push event sets the closed flag, removes the context guid
from the owning browser registry (when a browser is attached) and from the
browser type registry (when one is attached), and emits the local close
event, notifying every subscribed close listener, among them the resolver of
the internal closed promise and any pending Waiter. -/
theorem onClose_disposes (guid : Nat) (s : BCState) :
    (BrowserContext.onClose guid s).closed = true ∧
    (s.hasBrowser = true → guid ∉ (BrowserContext.onClose guid s).browserContexts) ∧
    (s.hasBrowserType = true → guid ∉ (BrowserContext.onClose guid s).browserTypeContexts) ∧
    ∀ l ∈ s.closeListeners, l ∈ (BrowserContext.onClose guid s).notified := by
  refine ⟨rfl, ?_, ?_, ?_⟩
  · intro hb
    simp [BrowserContext.onClose, BrowserContext.emitClose, hb, List.mem_filter]
  · intro hb
    simp [BrowserContext.onClose, BrowserContext.emitClose, hb, List.mem_filter]
  · intro l hl
    simp [BrowserContext.onClose, BrowserContext.emitClose, hl]

/-- onClose_disposes_witness: closing the example context marks it closed,
removes guid 7 from both registries and notifies close listener 3. -/
theorem onClose_disposes_witness :
    (BrowserContext.onClose 7 closeExampleState).closed = true ∧
    7 ∉ (BrowserContext.onClose 7 closeExampleState).browserContexts ∧
    7 ∉ (BrowserContext.onClose 7 closeExampleState).browserTypeContexts ∧
    3 ∈ (BrowserContext.onClose 7 closeExampleState).notified := by
  obtain ⟨h1, h2, h3, h4⟩ := onClose_disposes 7 closeExampleState
  exact ⟨h1, h2 rfl, h3 rfl, h4 3 (by decide)⟩

/-- C6: with a successful channel call, exposeBinding registers the callback
under the given name, re-registering the same name overwrites the previous
callback (last write wins) without raising any error, and exposeFunction
stores the adapter that discards the injected source argument. -/
theorem exposeBinding_last_write_wins (m : List (String × Callback)) (n : String)
    (c1 c2 : Callback) (fn : List Nat → Nat) :
    (BrowserContext.exposeBinding (Except.ok ()) m n c1).1 = Except.ok () ∧
    mapGet (BrowserContext.exposeBinding (Except.ok ()) m n c1).2 n = some c1 ∧
    (BrowserContext.exposeBinding (Except.ok ())
        (BrowserContext.exposeBinding (Except.ok ()) m n c1).2 n c2).1 = Except.ok () ∧
    mapGet (BrowserContext.exposeBinding (Except.ok ())
        (BrowserContext.exposeBinding (Except.ok ()) m n c1).2 n c2).2 n = some c2 ∧
    mapGet (BrowserContext.exposeFunction (Except.ok ()) m n fn).2 n =
      some (fun _source args => fn args) := by
  refine ⟨rfl, ?_, rfl, ?_, ?_⟩ <;>
    simp [BrowserContext.exposeBinding, BrowserContext.exposeFunction, mapGet_mapSet_self]

/-- C9: when the awaited remote channel call fails, exposeBinding and
exposeFunction propagate the error and leave the local binding registry
unchanged: the callback is stored only after the remote registration has
succeeded. -/
theorem exposeBinding_atomic_on_error (e : String) (m : List (String × Callback)) (n : String)
    (cb : Callback) (fn : List Nat → Nat) :
    BrowserContext.exposeBinding (Except.error e) m n cb = (Except.error e, m) ∧
    BrowserContext.exposeFunction (Except.error e) m n fn = (Except.error e, m) :=
  ⟨rfl, rfl⟩

/-- C7: a bindingCall event whose binding name has no registered callback in
the registry is dropped silently: no callback is invoked and no error is
raised. -/
theorem onBinding_unknown_dropped (m : List (String × Callback)) (n : String)
    (h : ∀ p ∈ m, p.1 ≠ n) :
    BrowserContext.onBinding m n = BindingOutcome.dropped := by
  simp [BrowserContext.onBinding, mapGet_eq_none m n h]

/-- onBinding_unknown_dropped_witness: a bindingCall naming bar against a
registry holding only foo is dropped. -/
theorem onBinding_unknown_dropped_witness :
    BrowserContext.onBinding [("foo", fun _ _ => 0)] "bar" = BindingOutcome.dropped := by
  refine onBinding_unknown_dropped _ _ ?_
  intro p hp
  have hp1 : p = ("foo", fun _ _ => 0) := by simpa using hp
  subst hp1
  decide

/-- C8: each of the request, response, requestFailed and requestFinished
handlers emits the single wire event once at the context scope and once at
the referenced page scope exactly when a page is referenced, for at most two
local emissions of one wire event. -/
theorem network_event_fanout (page : Option Nat) (req : RequestData) (t : Int)
    (ft : Option String) :
    emitProps (BrowserContext.onRequest page) page "request" ∧
    emitProps (BrowserContext.onResponse page) page "response" ∧
    emitProps (BrowserContext.onRequestFailed req t ft page).2 page "requestfailed" ∧
    emitProps (BrowserContext.onRequestFinished req t page).2 page "requestfinished" := by
  cases page <;>
    simp [emitProps, BrowserContext.onRequest, BrowserContext.onResponse,
      BrowserContext.onRequestFailed, BrowserContext.onRequestFinished, pageEmits,
      Emission.isContextScoped, List.countP_cons, List.countP_nil]

/-- network_event_fanout_witness: a request event referencing page 5 is also
emitted at the scope of page 5. -/
theorem network_event_fanout_witness :
    Emission.mk (EmitScope.page 5) "request" ∈ BrowserContext.onRequest (some 5) := by
  obtain ⟨-, -, -, h4, -⟩ := (network_event_fanout (some 5) ⟨none, none⟩ 0 none).1
  exact h4 5 rfl
